import Mathlib

/-!
Verification of the Clever Cloud invoicing-simulator repository.

The development shallowly embeds the two core pieces of the program:

* the selection state machine of the `InvoicingSimulator` React component
  (state fields `selectedProductInstance` / `selectedFlavors` and the
  handlers `onSelectProductInstance`, `onSelectProductFlavor`,
  `onUnselectProductFlavor`, together with the derived views
  `renderProductInstances`, `renderProductFlavors`, `renderHeader`);

* the catalog acquisition pipeline of `ProductInstancesService`
  (`getProductInstances`, `_fetchProductInstances`,
  `_productInstanceConverter`, `_preloadImage`).

Modelling conventions:

* JavaScript numbers are modelled as rationals (`ℚ`).  On the concrete
  values the specification singles out, IEEE-754 binary64 arithmetic agrees
  exactly with rational arithmetic (`10 * 41.904 = 419.04` and
  `(0 + 419.04) + 100.0 = 519.04` hold bit-exactly in binary64), so the
  rational model is observationally faithful there.
* JavaScript object identity (`===` / `!==` on flavor objects, and
  `Array.prototype.includes` membership, which uses SameValueZero) is
  modelled as structural equality of the corresponding record.  The
  converter creates each flavor object once, so within the program two
  structurally identical flavor records denote the same object wherever a
  claim depends on it.
* `Array.prototype.sort(comparator)` mutates the receiver and, since
  ES2019, is a stable sort; it is modelled by `List.insertionSort` with the
  reflexive total preorder derived from the comparator (stable sorts of a
  list under a fixed total preorder all coincide), the result standing for
  the array's contents after the call.
* Asynchronous computations returning promises are modelled as values of
  `Except ServiceError α`: a resolved promise is `.ok`, a rejected one is
  `.error`.
-/

namespace InvoicingSim

/-- The converted product-flavor model (`ProductFlavorModel` in the source).
The source flavor holds a back-reference `instance` to its owning product
instance; only the owning instance's identifier `instance.id` is ever read
from that back-reference (in `productFlavorItemId` and in the flavor
comparator), so the back-reference is modelled by the field `instanceId`
to keep the record non-recursive. -/
structure ProductFlavorModel where
  instanceId : String
  name : String
  price : ℚ
  mem : ℚ
  memFormatted : String
  cpus : ℚ
  gpus : ℚ
  available : Bool
  microservice : Bool
  machineLearning : Bool
deriving DecidableEq, Repr

/-- The converted product-instance model (`ProductInstanceModel` in the
source).  The `flavors` field is an `Option`: the converter writes
`rawProductInstance.flavors?.map(...)` into it, which is `undefined`
(modelled `none`) when the raw record has no `flavors` array. -/
structure ProductInstanceModel where
  id : String
  name : String
  description : String
  logo : String
  enabled : Bool
  comingSoon : Bool
  flavors : Option (List ProductFlavorModel)
deriving DecidableEq, Repr

/-- Modelled from the spec: the comparator module
(`productInstanceComparators.js`) is imported by the simulator but its
source is not part of the repository snapshot.  Per the spec,
`compareFlavors` is a total order over `ProductFlavor` primarily by price
ascending, ties broken by name lexicographic, then by owning-instance
identifier.  Lexicographic comparison of two strings is comparison of
their character sequences (`String`'s order is defined on `.data`); the
comparator reads the character lists directly so that it evaluates by
kernel reduction. -/
def productFlavorComparator (a b : ProductFlavorModel) : Ordering :=
  if a.price < b.price then .lt
  else if b.price < a.price then .gt
  else if a.name.data < b.name.data then .lt
  else if b.name.data < a.name.data then .gt
  else if a.instanceId.data < b.instanceId.data then .lt
  else if b.instanceId.data < a.instanceId.data then .gt
  else .eq

/-- Modelled from the spec: `compareInstances` is a total order over
`ProductInstance` by display name, case-sensitive lexicographic, ties
broken by identifier; string comparison reads the character lists, as in
`productFlavorComparator`. -/
def productInstanceComparator (a b : ProductInstanceModel) : Ordering :=
  if a.name.data < b.name.data then .lt
  else if b.name.data < a.name.data then .gt
  else if a.id.data < b.id.data then .lt
  else if b.id.data < a.id.data then .gt
  else .eq

/-- The reflexive total preorder induced by `productFlavorComparator`,
used to model `Array.prototype.sort(productFlavorComparator)`. -/
def flavorLe (a b : ProductFlavorModel) : Bool :=
  productFlavorComparator a b ≠ Ordering.gt

/-- The reflexive total preorder induced by `productInstanceComparator`. -/
def instanceLe (a b : ProductInstanceModel) : Bool :=
  productInstanceComparator a b ≠ Ordering.gt

/-- Relation form of `flavorLe`; `Array.prototype.sort` with a
consistent comparator produces a sequence sorted for this relation, and a
stable sort (which JavaScript's sort is) produces exactly one such
sequence, modelled by `List.insertionSort`. -/
def flavorRel (a b : ProductFlavorModel) : Prop := flavorLe a b = true

instance : DecidableRel flavorRel := fun a b => by unfold flavorRel; infer_instance

/-- Relation form of `instanceLe`. -/
def instanceRel (a b : ProductInstanceModel) : Prop := instanceLe a b = true

instance : DecidableRel instanceRel := fun a b => by unfold instanceRel; infer_instance

/-- The component state of `InvoicingSimulator`: the selected product
instance (initially `null`) and the flavors added to the cart. -/
structure SimulatorState where
  selectedProductInstance : Option ProductInstanceModel
  selectedFlavors : List ProductFlavorModel
deriving DecidableEq, Repr

/-- The initial component state: no instance selected, no flavors. -/
def initialState : SimulatorState :=
  { selectedProductInstance := none, selectedFlavors := [] }

/-- State modifier `setSelectedFlavors`: stores the given flavors sorted by
`productFlavorComparator` (the source sorts the array in place before
writing it to the state). -/
def setSelectedFlavors (s : SimulatorState) (selectedFlavors : List ProductFlavorModel) :
    SimulatorState :=
  { s with selectedFlavors := selectedFlavors.insertionSort flavorRel }

/-- Handler `onSelectProductInstance`: replaces the selected product instance and
touches nothing else in the state. -/
def onSelectProductInstance (s : SimulatorState) (productInstance : ProductInstanceModel) :
    SimulatorState :=
  { s with selectedProductInstance := some productInstance }

/-- Handler `onSelectProductFlavor`: appends the flavor to the selected flavors
(`[...this.state.selectedFlavors, productFlavor]`) and stores the result
through `setSelectedFlavors`, hence re-sorted.  No membership check is
performed here. -/
def onSelectProductFlavor (s : SimulatorState) (productFlavor : ProductFlavorModel) :
    SimulatorState :=
  setSelectedFlavors s (s.selectedFlavors ++ [productFlavor])

/-- Handler `onUnselectProductFlavor`: keeps exactly the selected flavors that are
not the given object (`filter(f => f !== productFlavor)`) and stores the
result through `setSelectedFlavors`. -/
def onUnselectProductFlavor (s : SimulatorState) (productFlavor : ProductFlavorModel) :
    SimulatorState :=
  setSelectedFlavors s (s.selectedFlavors.filter (fun f => f ≠ productFlavor))

/-- The selectable-flavor view computed in `renderProductFlavors`: the
active instance's flavors (`?.flavors ?? []`), minus the flavors already
selected (`includes` membership), sorted by the flavor comparator. -/
def selectableFlavors (s : SimulatorState) : List ProductFlavorModel :=
  (((s.selectedProductInstance.map (fun i => i.flavors.getD [])).getD []).filter
    (fun f => decide (f ∉ s.selectedFlavors))).insertionSort flavorRel

/-- The running total computed in `renderHeader`:
`selectedFlavors.map(f => f.price).reduce((a, b) => a + b, 0)`. -/
def totalPrice (s : SimulatorState) : ℚ :=
  (s.selectedFlavors.map (fun f => f.price)).foldl (fun a b => a + b) 0

/-- The contents of the caller-supplied `productInstances` array after
`renderProductInstances` ran: the source calls
`this.props.productInstances.sort(productInstanceComparator)`, and
`Array.prototype.sort` sorts the receiver in place, so the caller's array
is permuted into comparator order. -/
def renderProductInstances (productInstances : List ProductInstanceModel) :
    List ProductInstanceModel :=
  productInstances.insertionSort instanceRel

/-! ### Catalog service (`ProductInstancesService`) -/

/-- The nested `memory` object of a raw flavor record; only its
`formatted` field is read by the converter. -/
structure RawMemory where
  formatted : String
deriving DecidableEq, Repr

/-- A raw flavor record as served by the remote catalog endpoint. -/
structure RawProductFlavor where
  name : String
  price : ℚ
  mem : ℚ
  memory : RawMemory
  cpus : ℚ
  gpus : ℚ
  available : Bool
  microservice : Bool
  machine_learning : Bool
deriving DecidableEq, Repr

/-- The nested `variant` object of a raw instance record. -/
structure RawVariant where
  id : String
  name : String
  logo : String
deriving DecidableEq, Repr

/-- A raw instance record as served by the remote catalog endpoint.  The
`flavors` array may be absent (`none` models a nullish `flavors` field,
observed through the source's optional chaining `flavors?.`). -/
structure RawProductInstance where
  variant : RawVariant
  description : String
  enabled : Bool
  comingSoon : Bool
  flavors : Option (List RawProductFlavor)
deriving DecidableEq, Repr

/-- The errors a service call can reject with.  In the source every
rejection is a JavaScript value: the two `FetchFailure` kinds are thrown as
`new Error(...)` with a retry-suggesting message (the HTTP one embeds the
numeric status code, carried here as a field), `jsonSyntaxError` is the
`SyntaxError` a failing `response.json()` rejects with, and
`imagePreloadFailure` is the error event `_preloadImage` rejects with,
carrying the failing image url. -/
inductive ServiceError where
  | fetchTransport (msg : String)
  | fetchStatus (status : Nat)
  | jsonSyntaxError
  | imagePreloadFailure (url : String)
deriving DecidableEq, Repr

/-- The classes of response body relevant to the catalog fetch: an empty
or missing body, the JSON literal `null`, or a JSON array of raw instance
records. -/
inductive ResponseBody where
  | empty
  | jsonNull
  | jsonArray (items : List RawProductInstance)
deriving DecidableEq, Repr

/-- Model of the platform primitive `response.json()`: it reads the body
text and applies `JSON.parse`.  Per ECMAScript, `JSON.parse` of an empty
string throws a `SyntaxError` (so `response.json()` rejects when the body
is missing or empty), the text `null` parses to the value `null`
(modelled `none`), and an array body parses to the array. -/
def responseJson (body : ResponseBody) :
    Except ServiceError (Option (List RawProductInstance)) :=
  match body with
  | .empty => .error .jsonSyntaxError
  | .jsonNull => .ok none
  | .jsonArray items => .ok (some items)

/-- An HTTP response: its status code and its body.  The platform derives
`response.ok` from the status (`true` iff the status is in 200..299). -/
structure HttpResponse where
  status : Nat
  body : ResponseBody
deriving DecidableEq, Repr

/-- The platform's `response.ok` flag. -/
def HttpResponse.ok (r : HttpResponse) : Bool :=
  200 ≤ r.status && r.status ≤ 299

/-- The outcome of the `fetch(...)` call itself: either a transport-level
failure (the promise rejects, carrying an error message) or a response. -/
inductive FetchOutcome where
  | transportError (msg : String)
  | response (r : HttpResponse)
deriving DecidableEq, Repr

/-- Method `_fetchProductInstances`: wraps a transport failure of `fetch` in a
retry-suggesting `Error`, throws a retry-suggesting `Error` carrying the
status code when `response.ok` is false, and otherwise returns
`await response.json() || []` — the parsed body when it is an array
(arrays are truthy, even empty ones), `[]` when it parsed to `null`.  A
rejection of `response.json()` itself is not caught (the `try` block only
wraps the `fetch` call) and propagates. -/
def _fetchProductInstances (outcome : FetchOutcome) :
    Except ServiceError (List RawProductInstance) :=
  match outcome with
  | .transportError msg =>
      .error (.fetchTransport
        ("We could not fetch product instances. " ++ msg ++ " Please retry later."))
  | .response response =>
      if !response.ok then
        .error (.fetchStatus response.status)
      else
        match responseJson response.body with
        | .error e => .error e
        | .ok v => .ok (v.getD [])

/-- Method `_productInstanceConverter`: converts a raw instance record into a
`ProductInstanceModel`.  For legacy reasons the price coming from the API
is multiplied by `41.904`.  The flavors array is built by
`rawProductInstance.flavors?.map(...)`, overwriting the initial `[]` with
`undefined` (`none`) when the raw record has no flavors array; each
converted flavor's `instance` back-reference points at the enclosing
instance, modelled by recording its identifier. -/
def _productInstanceConverter (rawProductInstance : RawProductInstance) :
    ProductInstanceModel :=
  let productInstance : ProductInstanceModel :=
    { id := rawProductInstance.variant.id
      name := rawProductInstance.variant.name
      description := rawProductInstance.description
      logo := rawProductInstance.variant.logo
      enabled := rawProductInstance.enabled
      comingSoon := rawProductInstance.comingSoon
      flavors := some [] }
  { productInstance with
    flavors := rawProductInstance.flavors.map (fun flavors =>
      flavors.map (fun rawProductFlavor =>
        { instanceId := productInstance.id
          name := rawProductFlavor.name
          price := rawProductFlavor.price * 41.904
          mem := rawProductFlavor.mem
          memFormatted := rawProductFlavor.memory.formatted
          cpus := rawProductFlavor.cpus
          gpus := rawProductFlavor.gpus
          available := rawProductFlavor.available
          microservice := rawProductFlavor.microservice
          machineLearning := rawProductFlavor.machine_learning })) }

/-- Method `_preloadImage`: sets the src of an `Image` to the url and resolves on the
load event, rejects on the error event.  The environment `loads` says
whether the image at a given url loads successfully. -/
def _preloadImage (loads : String → Bool) (imageUrl : String) :
    Except ServiceError Unit :=
  if loads imageUrl then .ok () else .error (.imagePreloadFailure imageUrl)

/-- Model of `Promise.all` over already-determined promises: resolves when
all resolve, rejects with the first rejection otherwise. -/
def promiseAll : List (Except ServiceError Unit) → Except ServiceError Unit
  | [] => .ok ()
  | .error e :: _ => .error e
  | .ok _ :: rest => promiseAll rest

/-- Method `getProductInstances`: fetches the raw records, converts each of them,
and, when `preloadProductLogos` is set, awaits the parallel preload of
every converted instance's logo before returning the converted list.  The
fetch outcome and the image-load behaviour are passed as the environment. -/
def getProductInstances (outcome : FetchOutcome) (loads : String → Bool)
    (preloadProductLogos : Bool) : Except ServiceError (List ProductInstanceModel) :=
  match _fetchProductInstances outcome with
  | .error e => .error e
  | .ok raws =>
      let result := raws.map (fun i => _productInstanceConverter i)
      if preloadProductLogos then
        match promiseAll (result.map (fun r => _preloadImage loads r.logo)) with
        | .error e => .error e
        | .ok _ => .ok result
      else
        .ok result

instance {ε α : Type} [DecidableEq ε] [DecidableEq α] : DecidableEq (Except ε α)
  | .error e, .error f => decidable_of_iff (e = f) (by simp)
  | .error _, .ok _ => isFalse (by simp)
  | .ok _, .error _ => isFalse (by simp)
  | .ok a, .ok b => decidable_of_iff (a = b) (by simp)

/-! ### Order-theoretic facts about the comparators -/

/-- The lexicographic key `(price, name, instanceId)` realising the flavor
comparator's order. -/
def flavorKey (f : ProductFlavorModel) : ℚ ×ₗ (List Char ×ₗ List Char) :=
  toLex (f.price, toLex (f.name.data, f.instanceId.data))

/-- The lexicographic key `(name, id)` realising the instance comparator's
order. -/
def instanceKey (i : ProductInstanceModel) : List Char ×ₗ List Char :=
  toLex (i.name.data, i.id.data)

lemma flavorLe_iff (a b : ProductFlavorModel) :
    flavorLe a b = true ↔
      a.price < b.price ∨ (a.price = b.price ∧
        (a.name.data < b.name.data ∨
          (a.name.data = b.name.data ∧ a.instanceId.data ≤ b.instanceId.data))) := by
  unfold flavorLe productFlavorComparator
  split_ifs with h1 h2 h3 h4 h5 h6
  · simp [h1]
  · simp [h1, h2.ne']
  · have hp : a.price = b.price := le_antisymm (not_lt.mp h2) (not_lt.mp h1)
    simp [h1, hp, h3]
  · simp [h1, h3, h4.ne']
  · have hp : a.price = b.price := le_antisymm (not_lt.mp h2) (not_lt.mp h1)
    have hn : a.name.data = b.name.data := le_antisymm (not_lt.mp h4) (not_lt.mp h3)
    simp [hp, hn, le_of_lt h5]
  · simp [h1, h3, not_le.mpr h6]
  · have hp : a.price = b.price := le_antisymm (not_lt.mp h2) (not_lt.mp h1)
    have hn : a.name.data = b.name.data := le_antisymm (not_lt.mp h4) (not_lt.mp h3)
    simp [hp, hn, not_lt.mp h6]

lemma flavorLe_iff_key (a b : ProductFlavorModel) :
    flavorLe a b = true ↔ flavorKey a ≤ flavorKey b := by
  rw [flavorLe_iff]
  show _ ↔
    toLex (a.price, toLex (a.name.data, a.instanceId.data))
      ≤ toLex (b.price, toLex (b.name.data, b.instanceId.data))
  rw [Prod.Lex.le_iff, Prod.Lex.le_iff]

lemma instanceLe_iff (a b : ProductInstanceModel) :
    instanceLe a b = true ↔
      a.name.data < b.name.data ∨ (a.name.data = b.name.data ∧ a.id.data ≤ b.id.data) := by
  unfold instanceLe productInstanceComparator
  split_ifs with h1 h2 h3 h4
  · simp [h1]
  · simp [h1, h2.ne']
  · have hn : a.name.data = b.name.data := le_antisymm (not_lt.mp h2) (not_lt.mp h1)
    simp [hn, le_of_lt h3]
  · simp [h1, not_le.mpr h4]
  · have hn : a.name.data = b.name.data := le_antisymm (not_lt.mp h2) (not_lt.mp h1)
    simp [hn, not_lt.mp h4]

lemma instanceLe_iff_key (a b : ProductInstanceModel) :
    instanceLe a b = true ↔ instanceKey a ≤ instanceKey b := by
  rw [instanceLe_iff]
  show _ ↔ toLex (a.name.data, a.id.data) ≤ toLex (b.name.data, b.id.data)
  rw [Prod.Lex.le_iff]

lemma flavorLe_total (a b : ProductFlavorModel) :
    (flavorLe a b || flavorLe b a) = true := by
  rcases le_total (flavorKey a) (flavorKey b) with h | h
  · simp [flavorLe_iff_key _ _ |>.mpr h]
  · simp [flavorLe_iff_key _ _ |>.mpr h]

lemma flavorLe_trans (a b c : ProductFlavorModel)
    (hab : flavorLe a b) (hbc : flavorLe b c) : flavorLe a c :=
  (flavorLe_iff_key a c).mpr
    (le_trans ((flavorLe_iff_key a b).mp hab) ((flavorLe_iff_key b c).mp hbc))

lemma instanceLe_total (a b : ProductInstanceModel) :
    (instanceLe a b || instanceLe b a) = true := by
  rcases le_total (instanceKey a) (instanceKey b) with h | h
  · simp [instanceLe_iff_key _ _ |>.mpr h]
  · simp [instanceLe_iff_key _ _ |>.mpr h]

lemma instanceLe_trans (a b c : ProductInstanceModel)
    (hab : instanceLe a b) (hbc : instanceLe b c) : instanceLe a c :=
  (instanceLe_iff_key a c).mpr
    (le_trans ((instanceLe_iff_key a b).mp hab) ((instanceLe_iff_key b c).mp hbc))

instance : IsTotal ProductFlavorModel flavorRel :=
  ⟨fun a b => Bool.or_eq_true _ _ |>.mp (flavorLe_total a b)⟩

instance : IsTrans ProductFlavorModel flavorRel :=
  ⟨flavorLe_trans⟩

instance : IsTotal ProductInstanceModel instanceRel :=
  ⟨fun a b => Bool.or_eq_true _ _ |>.mp (instanceLe_total a b)⟩

instance : IsTrans ProductInstanceModel instanceRel :=
  ⟨instanceLe_trans⟩

/-! ### Concrete sample values -/

/-- A sample flavor with the given owning-instance identifier, name and
price; the remaining fields are fixed defaults, never consulted by the
ordering, identity or total computations. -/
def mkFlavor (instId fname : String) (price : ℚ) : ProductFlavorModel :=
  { instanceId := instId, name := fname, price := price, mem := 512
    memFormatted := "512 MiB", cpus := 1, gpus := 0, available := true
    microservice := false, machineLearning := false }

/-- A sample product instance with the given identifier and display name. -/
def mkInstance (id name : String) : ProductInstanceModel :=
  { id := id, name := name, description := "", logo := "logo-" ++ id
    enabled := true, comingSoon := false, flavors := some [] }

/-- A sample raw flavor with the given name and price. -/
def mkRawFlavor (name : String) (price : ℚ) : RawProductFlavor :=
  { name := name, price := price, mem := 512, memory := { formatted := "512 MiB" }
    cpus := 1, gpus := 0, available := true, microservice := false
    machine_learning := false }

/-- A sample raw instance with the given variant identifier, logo url and
flavors. -/
def mkRawInstance (id logo : String) (flavors : List RawProductFlavor) :
    RawProductInstance :=
  { variant := { id := id, name := "name-" ++ id, logo := logo }
    description := "", enabled := true, comingSoon := false
    flavors := some flavors }

/-! ### Claim theorems -/

/-- C1: for every raw catalog entry, the conversion step stores as each
flavor's price exactly the raw price multiplied by the constant 41.904;
in particular a raw price of 10 converts to 419.04. -/
theorem converter_multiplies_price_by_constant :
    (∀ raw : RawProductInstance,
      ((_productInstanceConverter raw).flavors.getD []).map (fun f => f.price)
        = (raw.flavors.getD []).map (fun rf => rf.price * 41.904))
    ∧ ((_productInstanceConverter
          (mkRawInstance "pg" "logo" [mkRawFlavor "S" 10])).flavors.getD []).map
        (fun f => f.price) = [(419.04 : ℚ)] := by
  constructor
  · intro raw
    cases h : raw.flavors with
    | none => simp [_productInstanceConverter, h]
    | some fs => simp [_productInstanceConverter, h, List.map_map, Function.comp]
  · norm_num [_productInstanceConverter, mkRawInstance, mkRawFlavor]

/-- C5: a catalog fetch whose HTTP response has a non-success status
fails with the FetchFailure error carrying exactly that numeric status
code (and hence with no other error type). -/
theorem non_success_status_yields_fetchFailure :
    ∀ (r : HttpResponse) (loads : String → Bool) (preload : Bool),
      r.ok = false →
        getProductInstances (FetchOutcome.response r) loads preload
          = .error (.fetchStatus r.status) := by
  intro r loads preload h
  simp [getProductInstances, _fetchProductInstances, h]

/-- Witness for C5: HTTP 500 yields the FetchFailure carrying 500. -/
theorem non_success_status_yields_fetchFailure_witness :
    (HttpResponse.mk 500 ResponseBody.empty).ok = false
    ∧ getProductInstances (FetchOutcome.response (HttpResponse.mk 500 ResponseBody.empty))
        (fun _ => true) false = .error (.fetchStatus 500) :=
  ⟨by decide,
    non_success_status_yields_fetchFailure (HttpResponse.mk 500 ResponseBody.empty)
      (fun _ => true) false (by decide)⟩

/-- C7: selecting a product instance replaces the active instance and
leaves the selected-flavor set exactly unchanged. -/
theorem selectInstance_replaces_instance_keeps_flavors :
    ∀ (s : SimulatorState) (i : ProductInstanceModel),
      (onSelectProductInstance s i).selectedProductInstance = some i
      ∧ (onSelectProductInstance s i).selectedFlavors = s.selectedFlavors :=
  fun _ _ => ⟨rfl, rfl⟩

/-- C9: the running total is the plain additive sum of the price field
over the selected flavors, 0 when the selection is empty; in particular
selected prices 419.04 and 100 total 519.04. -/
theorem total_is_sum_of_prices :
    (∀ s : SimulatorState,
      totalPrice s = (s.selectedFlavors.map (fun f => f.price)).sum)
    ∧ (∀ i : Option ProductInstanceModel, totalPrice (SimulatorState.mk i []) = 0)
    ∧ totalPrice
        (SimulatorState.mk none [mkFlavor "pg" "L" 419.04, mkFlavor "pg" "S" 100])
      = 519.04 := by
  refine ⟨fun s => ?_, fun i => rfl, ?_⟩
  · rw [totalPrice, List.sum_eq_foldl]
  · norm_num [totalPrice, mkFlavor]

/-- C10: rendering the catalog list sorts the caller-provided array in
place: afterwards the externally supplied sequence is a permutation of the
original in instance-comparator order, and an unsorted input is actually
changed. -/
theorem render_sorts_props_array_in_place :
    (∀ l : List ProductInstanceModel,
      (renderProductInstances l).Perm l
      ∧ List.Pairwise instanceRel (renderProductInstances l))
    ∧ renderProductInstances [mkInstance "1" "b", mkInstance "2" "a"]
        ≠ [mkInstance "1" "b", mkInstance "2" "a"] := by
  refine ⟨fun l => ⟨List.perm_insertionSort instanceRel l, ?_⟩, by decide⟩
  exact List.sorted_insertionSort instanceRel l

/-- C4 (counterexample): a successful response with a literally empty body
makes the catalog call fail with the propagated JSON SyntaxError instead
of returning an empty catalog. -/
theorem empty_body_fails_counterexample :
    getProductInstances (FetchOutcome.response (HttpResponse.mk 200 ResponseBody.empty))
        (fun _ => true) false = .error .jsonSyntaxError
    ∧ getProductInstances (FetchOutcome.response (HttpResponse.mk 200 ResponseBody.empty))
        (fun _ => true) false ≠ .ok [] := by
  exact ⟨rfl, by decide⟩

/-- C4 (amended): a successful response whose body parses to the JSON
value null is treated as an empty catalog and raises no error; a literally
empty body instead propagates the SyntaxError of `response.json()`. -/
theorem null_body_yields_empty_catalog :
    ∀ (r : HttpResponse) (loads : String → Bool),
      r.ok = true → r.body = ResponseBody.jsonNull →
        getProductInstances (FetchOutcome.response r) loads false = .ok [] := by
  intro r loads hok hbody
  simp [getProductInstances, _fetchProductInstances, hok, hbody, responseJson]

/-- Witness for the amended C4 at HTTP 200 with a null body. -/
theorem null_body_yields_empty_catalog_witness :
    (HttpResponse.mk 200 ResponseBody.jsonNull).ok = true
    ∧ getProductInstances
        (FetchOutcome.response (HttpResponse.mk 200 ResponseBody.jsonNull))
        (fun _ => true) false = .ok [] :=
  ⟨by decide,
    null_body_yields_empty_catalog (HttpResponse.mk 200 ResponseBody.jsonNull)
      (fun _ => true) (by decide) rfl⟩

/-- Helper for C6: when every logo loads, the joined preload promise
resolves. -/
lemma promiseAll_preloads_ok (loads : String → Bool) :
    ∀ rs : List ProductInstanceModel,
      (∀ r ∈ rs, loads r.logo = true) →
      promiseAll (rs.map (fun r => _preloadImage loads r.logo)) = .ok () := by
  intro rs h
  induction rs with
  | nil => rfl
  | cons r rs ih =>
      have hr := h r (List.mem_cons_self r rs)
      simp only [List.map_cons, _preloadImage, hr, if_true, promiseAll]
      exact ih (fun x hx => h x (List.mem_cons_of_mem _ hx))

/-- Helper for C6: when some logo fails to load, the joined preload
promise rejects with an image-preload failure for a failing url. -/
lemma promiseAll_preloads_err (loads : String → Bool) :
    ∀ rs : List ProductInstanceModel,
      (∃ r ∈ rs, loads r.logo = false) →
      ∃ url, promiseAll (rs.map (fun r => _preloadImage loads r.logo))
          = .error (.imagePreloadFailure url) ∧ loads url = false := by
  intro rs h
  induction rs with
  | nil => simp at h
  | cons r rs ih =>
      by_cases hr : loads r.logo = true
      · obtain ⟨x, hx, hxf⟩ := h
        rcases List.mem_cons.mp hx with rfl | hx'
        · rw [hr] at hxf; cases hxf
        · obtain ⟨url, hu, hf⟩ := ih ⟨x, hx', hxf⟩
          refine ⟨url, ?_, hf⟩
          simpa only [List.map_cons, _preloadImage, hr, if_true, promiseAll] using hu
      · have hr' : loads r.logo = false := by
          revert hr; cases loads r.logo <;> simp
        refine ⟨r.logo, ?_, hr'⟩
        simp [promiseAll, _preloadImage, hr']

/-- C6: with logo preloading requested, a catalog call whose fetch
succeeded returns the converted instances untouched when every logo
preload succeeds, and rejects with an image-preload failure carrying a
failing logo url as soon as any one preload fails. -/
theorem preload_failure_rejects_call :
    ∀ (outcome : FetchOutcome) (loads : String → Bool) (raws : List RawProductInstance),
      _fetchProductInstances outcome = .ok raws →
        ((∀ r ∈ raws.map (fun i => _productInstanceConverter i), loads r.logo = true) →
          getProductInstances outcome loads true
            = .ok (raws.map (fun i => _productInstanceConverter i)))
        ∧ ((∃ r ∈ raws.map (fun i => _productInstanceConverter i), loads r.logo = false) →
          ∃ url, getProductInstances outcome loads true
              = .error (.imagePreloadFailure url) ∧ loads url = false) := by
  intro outcome loads raws hfetch
  constructor
  · intro hall
    have hok := promiseAll_preloads_ok loads _ hall
    rw [List.map_map] at hok
    simp [getProductInstances, hfetch, hok]
  · intro hex
    obtain ⟨url, hu, hf⟩ := promiseAll_preloads_err loads _ hex
    rw [List.map_map] at hu
    refine ⟨url, ?_, hf⟩
    simp [getProductInstances, hfetch, hu]

/-- Witness for C6: three instances, the second logo fails to load; the
call rejects with the image-preload failure for that logo even though the
other two preloads succeeded. -/
theorem preload_failure_rejects_call_witness :
    (∃ url, getProductInstances
        (FetchOutcome.response (HttpResponse.mk 200 (ResponseBody.jsonArray
          [mkRawInstance "a" "l1" [], mkRawInstance "b" "l2" [], mkRawInstance "c" "l3" []])))
        (fun u => decide (u ≠ "l2")) true
      = .error (.imagePreloadFailure url) ∧ decide (url ≠ "l2") = false)
    ∧ getProductInstances
        (FetchOutcome.response (HttpResponse.mk 200 (ResponseBody.jsonArray
          [mkRawInstance "a" "l1" [], mkRawInstance "b" "l2" [], mkRawInstance "c" "l3" []])))
        (fun u => decide (u ≠ "l2")) true
      = .error (.imagePreloadFailure "l2") :=
  ⟨(preload_failure_rejects_call
      (FetchOutcome.response (HttpResponse.mk 200 (ResponseBody.jsonArray
        [mkRawInstance "a" "l1" [], mkRawInstance "b" "l2" [], mkRawInstance "c" "l3" []])))
      (fun u => decide (u ≠ "l2")) _ rfl).2 (by decide), by decide⟩

/-- C2 (counterexample): adding a flavor that is already the sole selected
flavor changes the selected set — a duplicate entry appears. -/
theorem addFlavor_twice_counterexample :
    (mkFlavor "i" "s" 100) ∈ (SimulatorState.mk none [mkFlavor "i" "s" 100]).selectedFlavors
    ∧ (onSelectProductFlavor (SimulatorState.mk none [mkFlavor "i" "s" 100])
        (mkFlavor "i" "s" 100)).selectedFlavors
      ≠ (SimulatorState.mk none [mkFlavor "i" "s" 100]).selectedFlavors := by
  decide

/-- C2 (corrected): adding a flavor already in the selected set appends a
duplicate entry — the stored sequence re-sorts the old selection with the
flavor appended, so its length and the flavor's multiplicity both grow by
one; deduplication is enforced upstream only, by the selectable-flavor
view excluding already-selected flavors. -/
theorem addFlavor_on_selected_appends_duplicate :
    ∀ (s : SimulatorState) (f : ProductFlavorModel),
      f ∈ s.selectedFlavors →
        (onSelectProductFlavor s f).selectedFlavors.length
            = s.selectedFlavors.length + 1
        ∧ (onSelectProductFlavor s f).selectedFlavors.count f
            = s.selectedFlavors.count f + 1
        ∧ f ∉ selectableFlavors s := by
  intro s f hf
  have hp := List.perm_insertionSort flavorRel (s.selectedFlavors ++ [f])
  refine ⟨?_, ?_, ?_⟩
  · simp [onSelectProductFlavor, setSelectedFlavors, hp.length_eq]
  · show (List.insertionSort flavorRel (s.selectedFlavors ++ [f])).count f = _
    rw [hp.count_eq, List.count_append]
    simp
  · simp [selectableFlavors, List.mem_filter, hf]

/-- Witness for the corrected C2. -/
theorem addFlavor_on_selected_appends_duplicate_witness :
    (mkFlavor "i" "t" 7) ∈ (SimulatorState.mk none [mkFlavor "i" "t" 7]).selectedFlavors
    ∧ ((onSelectProductFlavor (SimulatorState.mk none [mkFlavor "i" "t" 7])
          (mkFlavor "i" "t" 7)).selectedFlavors.length
        = (SimulatorState.mk none [mkFlavor "i" "t" 7]).selectedFlavors.length + 1
      ∧ (onSelectProductFlavor (SimulatorState.mk none [mkFlavor "i" "t" 7])
          (mkFlavor "i" "t" 7)).selectedFlavors.count (mkFlavor "i" "t" 7)
        = (SimulatorState.mk none [mkFlavor "i" "t" 7]).selectedFlavors.count
            (mkFlavor "i" "t" 7) + 1
      ∧ (mkFlavor "i" "t" 7) ∉ selectableFlavors (SimulatorState.mk none [mkFlavor "i" "t" 7])) :=
  ⟨by decide,
    addFlavor_on_selected_appends_duplicate (SimulatorState.mk none [mkFlavor "i" "t" 7])
      (mkFlavor "i" "t" 7) (by decide)⟩

/-- C3 (counterexample): a selected flavor whose identity pair
(owning-instance id, name) matches the argument of removeFlavor is kept
when it is a different object (here: same id and name, different price),
so removal does not go by the identity pair. -/
theorem removeFlavor_identity_counterexample :
    (mkFlavor "i" "n" 2).instanceId = (mkFlavor "i" "n" 3).instanceId
    ∧ (mkFlavor "i" "n" 2).name = (mkFlavor "i" "n" 3).name
    ∧ mkFlavor "i" "n" 2 ≠ mkFlavor "i" "n" 3
    ∧ (onUnselectProductFlavor (SimulatorState.mk none [mkFlavor "i" "n" 2])
        (mkFlavor "i" "n" 3)).selectedFlavors = [mkFlavor "i" "n" 2] := by
  decide

/-- C3 (corrected): removeFlavor removes exactly the selected flavors that
are the argument object itself (reference equality, modelled structurally),
not all flavors with a matching (owning-instance id, name) pair; when the
argument is not in the selected set — which is canonically sorted in every
reachable state — the operation is a no-op and raises no error. -/
theorem removeFlavor_removes_by_object_identity :
    ∀ (s : SimulatorState) (f : ProductFlavorModel),
      (∀ g, g ∈ (onUnselectProductFlavor s f).selectedFlavors ↔
          (g ∈ s.selectedFlavors ∧ g ≠ f))
      ∧ (f ∉ s.selectedFlavors → s.selectedFlavors.Pairwise flavorRel →
          (onUnselectProductFlavor s f).selectedFlavors = s.selectedFlavors) := by
  intro s f
  constructor
  · intro g
    simp [onUnselectProductFlavor, setSelectedFlavors, List.mem_filter]
  · intro hnf hsorted
    have hfilter : s.selectedFlavors.filter (fun g => g ≠ f) = s.selectedFlavors := by
      apply List.filter_eq_self.mpr
      intro a ha
      simp only [ne_eq, decide_eq_true_eq]
      intro he
      exact hnf (he ▸ ha)
    show List.insertionSort flavorRel (s.selectedFlavors.filter (fun g => g ≠ f))
        = s.selectedFlavors
    rw [hfilter]
    exact List.Sorted.insertionSort_eq hsorted

/-- Witness for the corrected C3: removing an absent flavor is a no-op. -/
theorem removeFlavor_removes_by_object_identity_witness :
    (mkFlavor "a" "x" 4) ∉ (SimulatorState.mk none [mkFlavor "b" "y" 5]).selectedFlavors
    ∧ (onUnselectProductFlavor (SimulatorState.mk none [mkFlavor "b" "y" 5])
        (mkFlavor "a" "x" 4)).selectedFlavors
      = (SimulatorState.mk none [mkFlavor "b" "y" 5]).selectedFlavors :=
  ⟨by decide,
    (removeFlavor_removes_by_object_identity (SimulatorState.mk none [mkFlavor "b" "y" 5])
      (mkFlavor "a" "x" 4)).2 (by decide) (by decide)⟩

/-- The states reachable from the initial empty state through the three
transition handlers. -/
inductive Reachable : SimulatorState → Prop where
  | initial : Reachable initialState
  | selectInstance (s : SimulatorState) (i : ProductInstanceModel) :
      Reachable s → Reachable (onSelectProductInstance s i)
  | addFlavor (s : SimulatorState) (f : ProductFlavorModel) :
      Reachable s → Reachable (onSelectProductFlavor s f)
  | removeFlavor (s : SimulatorState) (f : ProductFlavorModel) :
      Reachable s → Reachable (onUnselectProductFlavor s f)

/-- C8: in every reachable state, the selected-flavor sequence is sorted
in the canonical comparator order (price ascending, then name, then
owning-instance identifier). -/
theorem reachable_selection_sorted :
    ∀ s : SimulatorState, Reachable s → s.selectedFlavors.Pairwise flavorRel := by
  intro s h
  induction h with
  | initial => exact List.Pairwise.nil
  | selectInstance s i _ ih => exact ih
  | addFlavor s f _ _ => exact List.sorted_insertionSort flavorRel _
  | removeFlavor s f _ _ => exact List.sorted_insertionSort flavorRel _

/-- Witness for C8 at a concrete reachable state. -/
theorem reachable_selection_sorted_witness :
    Reachable (onSelectProductFlavor
      (onSelectProductInstance initialState (mkInstance "pg" "PostgreSQL"))
      (mkFlavor "pg" "s" 3))
    ∧ ((onSelectProductFlavor
        (onSelectProductInstance initialState (mkInstance "pg" "PostgreSQL"))
        (mkFlavor "pg" "s" 3)).selectedFlavors).Pairwise flavorRel :=
  ⟨Reachable.addFlavor _ _ (Reachable.selectInstance _ _ Reachable.initial),
    reachable_selection_sorted _
      (Reachable.addFlavor _ _ (Reachable.selectInstance _ _ Reachable.initial))⟩

end InvoicingSim
